import Mathlib

/-!
Verification of the Smart Link views of `mayan/apps/linking/views.py`.

The data model (documents, smart links, conditions, document types) and the
view-level control flow (permission gates, 404 lookups, the resolved-link
queryset with its error-hiding policy, and the document-type assign/remove
lists) are embedded as executable Lean definitions.  The ORM's persistent
store is a `Db` record; Django's `AccessControlList.objects.check_access`
is an abstract boolean ACL store consulted through `check_access`;
`get_object_or_404` becomes an `Option` lookup turned into a not-found
failure.  The smart-link resolver `SmartLink.get_linked_document_for`
lives in `models.py`, which is not part of the shown source, so it is
modelled from the specification text (section 4.1 of the spec); this is
noted on the definition itself.
-/

namespace Linking

/-- The permissions named in `views.py` (from `documents.permissions` and
`linking.permissions`). -/
inductive Permission where
  | document_view
  | smart_link_view
  | smart_link_create
  | smart_link_delete
  | smart_link_edit
  deriving DecidableEq, Repr

/-- An acting principal; only its primary key matters to the ACL store. -/
structure User where
  pk : Nat
  deriving DecidableEq, Repr

/-- The ACL store: does user `u` hold permission `p` on the object with
primary key `objPk`?  `AccessControlList.objects.check_access` consults
this store. -/
def ACL : Type := Nat → Permission → Nat → Bool

/-- The failures a view can signal: Django's `Http404` (from
`get_object_or_404`) and `PermissionDenied` (from `check_access`). -/
inductive ViewError where
  | notFound
  | permissionDenied
  deriving DecidableEq, Repr

/-- `AccessControlList.objects.check_access(obj, permission, user)`:
succeeds silently or raises `PermissionDenied`. -/
def check_access (acl : ACL) (user : User) (permission : Permission)
    (objPk : Nat) : Except ViewError Unit :=
  if acl user.pk permission objPk then Except.ok () else Except.error ViewError.permissionDenied

/-- A stored document: primary key plus its metadata fields (an association
list from field name to value, standing for the document's queryable
attributes such as `customer_id`). -/
structure Doc where
  pk : Nat
  fields : List (String × Int)
  deriving DecidableEq, Repr

/-- Field lookup on a document; `none` when the document has no such field. -/
def Doc.getField (d : Doc) (name : String) : Option Int :=
  d.fields.lookup name

/-- Comparison operators available to a smart link condition. -/
inductive Operator where
  | eq
  | lt
  | gt
  deriving DecidableEq, Repr

/-- `SmartLinkCondition` row: belongs to exactly one smart link
(`smart_link_pk`), and encodes a comparison between the candidate target
document's field `target_expression` and either the source document's
field `source_expression` (when `foreign_document_data` is set) or the
literal value written in `source_expression`.  `negated` inverts the
result; disabled conditions are skipped. -/
structure SmartLinkCondition where
  pk : Nat
  smart_link_pk : Nat
  source_expression : String
  operator : Operator
  target_expression : String
  foreign_document_data : Bool
  negated : Bool
  enabled : Bool
  deriving DecidableEq, Repr

/-- `SmartLink` row: primary key, label, and its many-to-many set of
enabled document types (by primary key). -/
structure SmartLink where
  pk : Nat
  label : String
  document_types : Finset Nat
  deriving DecidableEq

/-- The persistent store backing the ORM: all documents, all document
types (by primary key), all smart links, and all smart link conditions. -/
structure Db where
  documents : List Doc
  document_types : List Nat
  smart_links : List SmartLink
  conditions : List SmartLinkCondition

/-- `Document.objects.get(pk=...)` as an `Option` lookup. -/
def findDocument (db : Db) (pk : Nat) : Option Doc :=
  db.documents.find? (fun d => d.pk == pk)

/-- `SmartLink.objects.get(pk=...)` as an `Option` lookup. -/
def findSmartLink (db : Db) (pk : Nat) : Option SmartLink :=
  db.smart_links.find? (fun s => s.pk == pk)

/-- `SmartLinkCondition.objects.get(pk=...)` as an `Option` lookup. -/
def findCondition (db : Db) (pk : Nat) : Option SmartLinkCondition :=
  db.conditions.find? (fun c => c.pk == pk)

/-- The conditions owned by a smart link (`smart_link.conditions.all()`). -/
def SmartLink.get_conditions (db : Db) (sl : SmartLink) : List SmartLinkCondition :=
  db.conditions.filter (fun c => c.smart_link_pk == sl.pk)

/-- Apply a condition's comparison operator. -/
def applyOperator (op : Operator) (targetValue sourceValue : Int) : Bool :=
  match op with
  | Operator.eq => targetValue == sourceValue
  | Operator.lt => targetValue < sourceValue
  | Operator.gt => targetValue > sourceValue

/-- Modelled from the spec: evaluation of a single smart link condition
against a candidate target document (part of `SmartLink.get_linked_document_for`
in `models.py`, which is not among the shown source files).  Per the spec,
a condition referencing the source document's own field has the source's
current value substituted before comparison with the target's field;
otherwise the target's field is compared directly against the literal in
the expression.  A missing field or an unparsable literal is a
query/evaluation error. -/
def evalCondition (source : Doc) (c : SmartLinkCondition) (target : Doc) :
    Except String Bool :=
  match target.getField c.target_expression with
  | none => Except.error ("Cannot resolve keyword: " ++ c.target_expression)
  | some targetValue =>
    let sourceValue? : Except String Int :=
      if c.foreign_document_data then
        match source.getField c.source_expression with
        | none => Except.error ("Cannot resolve keyword: " ++ c.source_expression)
        | some v => Except.ok v
      else
        match c.source_expression.toInt? with
        | none => Except.error ("Invalid literal: " ++ c.source_expression)
        | some v => Except.ok v
    match sourceValue? with
    | Except.error e => Except.error e
    | Except.ok sourceValue =>
      let r := applyOperator c.operator targetValue sourceValue
      Except.ok (if c.negated then !r else r)

/-- Modelled from the spec: a candidate target document matches when every
enabled condition of the smart link evaluates to true (conditions are
ANDed); any evaluation error aborts the whole resolution. -/
def conditionsMatch (source : Doc) (conds : List SmartLinkCondition) (target : Doc) :
    Except String Bool :=
  match conds with
  | [] => Except.ok true
  | c :: rest =>
    if c.enabled then
      match evalCondition source c target, conditionsMatch source rest target with
      | Except.error e, _ => Except.error e
      | Except.ok _, Except.error e => Except.error e
      | Except.ok b, Except.ok brest => Except.ok (b && brest)
    else
      conditionsMatch source rest target

/-- Effectful filter: keeps the elements the predicate accepts, aborting
with the first evaluation error. -/
def filterE (p : Doc → Except String Bool) : List Doc → Except String (List Doc)
  | [] => Except.ok []
  | d :: ds =>
    match p d, filterE p ds with
    | Except.error e, _ => Except.error e
    | Except.ok _, Except.error e => Except.error e
    | Except.ok b, Except.ok rest => Except.ok (if b then d :: rest else rest)

/-- Modelled from the spec: `SmartLink.get_linked_document_for(document)`
(defined in `models.py`, not among the shown source files).  Given a
source document, it returns the candidate documents (the document set)
satisfying every enabled condition, or the query/evaluation error raised
while evaluating a condition. -/
def SmartLink.get_linked_document_for (db : Db) (sl : SmartLink) (document : Doc) :
    Except String (List Doc) :=
  filterE (conditionsMatch document (SmartLink.get_conditions db sl)) db.documents

/-- `ResolvedSmartLinkView.dispatch` (views.py lines 34-54): look up the
document and the smart link by primary key (404 on a missing one), then
check `permission_document_view` on the document and
`permission_smart_link_view` on the smart link, in that order; only then
does control proceed to the parent dispatch. -/
def ResolvedSmartLinkView.dispatch (db : Db) (acl : ACL) (user : User)
    (document_id smart_link_id : Nat) : Except ViewError (Doc × SmartLink) :=
  match findDocument db document_id with
  | none => Except.error ViewError.notFound
  | some document =>
    match findSmartLink db smart_link_id with
    | none => Except.error ViewError.notFound
    | some smart_link =>
      match check_access acl user Permission.document_view document.pk with
      | Except.error e => Except.error e
      | Except.ok _ =>
        match check_access acl user Permission.smart_link_view smart_link.pk with
        | Except.error e => Except.error e
        | Except.ok _ => Except.ok (document, smart_link)

/-- `ResolvedSmartLinkView.get_document_queryset` (views.py lines 56-78):
resolve the smart link for the document; on any exception the queryset
becomes the empty set and, only when the acting user passes the
`permission_smart_link_edit` check on the smart link, the error message
`Smart link query error: ...` is added to the user-visible messages.
Returns the queryset together with the list of messages shown. -/
def ResolvedSmartLinkView.get_document_queryset (db : Db) (acl : ACL) (user : User)
    (smart_link : SmartLink) (document : Doc) : List Doc × List String :=
  match SmartLink.get_linked_document_for db smart_link document with
  | Except.ok queryset => (queryset, [])
  | Except.error exception =>
    match check_access acl user Permission.smart_link_edit smart_link.pk with
    | Except.error _ => ([], [])
    | Except.ok _ => ([], ["Smart link query error: " ++ exception])

/-- The whole resolved-smart-link request: dispatch (lookups and
permission gates) and, when it passes, the document queryset plus
user-visible messages. -/
def ResolvedSmartLinkView.run (db : Db) (acl : ACL) (user : User)
    (document_id smart_link_id : Nat) : Except ViewError (List Doc × List String) :=
  match ResolvedSmartLinkView.dispatch db acl user document_id smart_link_id with
  | Except.error e => Except.error e
  | Except.ok (document, smart_link) =>
    Except.ok (ResolvedSmartLinkView.get_document_queryset db acl user smart_link document)

/-- `SetupSmartLinkDocumentTypesView.get_object` (views.py lines 120-123):
`get_object_or_404(klass=SmartLink, pk=...)`. -/
def SetupSmartLinkDocumentTypesView.get_object (db : Db) (smart_link_id : Nat) :
    Except ViewError SmartLink :=
  match findSmartLink db smart_link_id with
  | none => Except.error ViewError.notFound
  | some sl => Except.ok sl

/-- `SetupSmartLinkDocumentTypesView.add` (views.py lines 109-110):
`self.get_object().document_types.add(item)`.  Django's many-to-many
`add` inserts the item into the relation's set. -/
def SetupSmartLinkDocumentTypesView.add (document_types : Finset Nat) (item : Nat) :
    Finset Nat :=
  insert item document_types

/-- `SetupSmartLinkDocumentTypesView.remove` (views.py lines 133-134):
`self.get_object().document_types.remove(item)`.  Django's many-to-many
`remove` deletes the item from the relation's set. -/
def SetupSmartLinkDocumentTypesView.remove (document_types : Finset Nat) (item : Nat) :
    Finset Nat :=
  document_types.erase item

/-- `SetupSmartLinkDocumentTypesView.left_list` (views.py lines 125-131):
`DocumentType.objects.exclude(pk__in=self.get_object().document_types.all())`.
The acting user and the ACL store are in scope on the request but are not
consulted (the source carries a TODO noting the absent ACL filtering). -/
def SetupSmartLinkDocumentTypesView.left_list (db : Db) (acl : ACL) (user : User)
    (sl : SmartLink) : Finset Nat :=
  db.document_types.toFinset.filter (fun pk => pk ∉ sl.document_types)

/-- `SetupSmartLinkDocumentTypesView.right_list` (views.py lines 136-140):
`self.get_object().document_types.all()`.  As with the left list, the
acting user and the ACL store are not consulted. -/
def SetupSmartLinkDocumentTypesView.right_list (db : Db) (acl : ACL) (user : User)
    (sl : SmartLink) : Finset Nat :=
  sl.document_types

/-- `SmartLinkConditionListView.get_smart_link` (views.py lines 271-274):
`get_object_or_404(klass=SmartLink, pk=...)`. -/
def SmartLinkConditionListView.get_smart_link (db : Db) (smart_link_id : Nat) :
    Except ViewError SmartLink :=
  match findSmartLink db smart_link_id with
  | none => Except.error ViewError.notFound
  | some sl => Except.ok sl

/-- `SmartLinkConditionCreateView` (views.py lines 280-316): dispatch looks
up the owning smart link (404 if missing) and checks
`permission_smart_link_edit` on it; only then is the new condition saved
with `smart_link` forced to the owning link (`get_instance_extra_data`). -/
def SmartLinkConditionCreateView.run (db : Db) (acl : ACL) (user : User)
    (smart_link_id : Nat) (payload : SmartLinkCondition) : Except ViewError Db :=
  match findSmartLink db smart_link_id with
  | none => Except.error ViewError.notFound
  | some smart_link =>
    match check_access acl user Permission.smart_link_edit smart_link.pk with
    | Except.error e => Except.error e
    | Except.ok _ => Except.ok { db with
        conditions := db.conditions ++ [{ payload with smart_link_pk := smart_link.pk }] }

/-- `SmartLinkConditionEditView` (views.py lines 319-345): dispatch looks
up the condition by primary key (404 if missing) and checks
`permission_smart_link_edit` on `self.get_object().smart_link` — the
owning smart link; only then is the condition row updated in place (its
key and owner are preserved). -/
def SmartLinkConditionEditView.run (db : Db) (acl : ACL) (user : User)
    (condition_id : Nat) (payload : SmartLinkCondition) : Except ViewError Db :=
  match findCondition db condition_id with
  | none => Except.error ViewError.notFound
  | some condition =>
    match check_access acl user Permission.smart_link_edit condition.smart_link_pk with
    | Except.error e => Except.error e
    | Except.ok _ => Except.ok { db with
        conditions := db.conditions.map (fun c =>
          if c.pk == condition_id then
            { payload with pk := condition.pk, smart_link_pk := condition.smart_link_pk }
          else c) }

/-- `SmartLinkConditionDeleteView` (views.py lines 348-375): dispatch looks
up the condition by primary key (404 if missing) and checks
`permission_smart_link_edit` on `self.get_object().smart_link` — the
owning smart link; only then is the condition row deleted. -/
def SmartLinkConditionDeleteView.run (db : Db) (acl : ACL) (user : User)
    (condition_id : Nat) : Except ViewError Db :=
  match findCondition db condition_id with
  | none => Except.error ViewError.notFound
  | some condition =>
    match check_access acl user Permission.smart_link_edit condition.smart_link_pk with
    | Except.error e => Except.error e
    | Except.ok _ => Except.ok { db with
        conditions := db.conditions.filter (fun c => c.pk != condition_id) }

/-! Concrete fixtures used to instantiate the theorems below: a
"Related Invoices" smart link with the one condition
`source.customer_id == target.customer_id`, a smart link with no
conditions, and a smart link whose condition references a field absent
from every document (so that its resolution fails). -/

/-- A sample acting principal. -/
def exUser : User := ⟨100⟩

/-- A second sample acting principal. -/
def exUser2 : User := ⟨200⟩

/-- The ACL store granting every permission. -/
def aclAll : ACL := fun _ _ _ => true

/-- The ACL store granting no permission. -/
def aclNone : ACL := fun _ _ _ => false

/-- Source document, `customer_id` = 42. -/
def exDoc1 : Doc := ⟨1, [("customer_id", 42)]⟩

/-- Another document with `customer_id` = 42. -/
def exDoc2 : Doc := ⟨2, [("customer_id", 42)]⟩

/-- A document with `customer_id` = 7. -/
def exDoc3 : Doc := ⟨3, [("customer_id", 7)]⟩

/-- The condition `source.customer_id == target.customer_id` of smart
link 5. -/
def exCond : SmartLinkCondition :=
  ⟨10, 5, "customer_id", Operator.eq, "customer_id", true, false, true⟩

/-- The "Related Invoices" smart link (pk 5). -/
def exLink : SmartLink := ⟨5, "Related Invoices", ∅⟩

/-- A smart link (pk 7) owning no conditions. -/
def exLinkNoConditions : SmartLink := ⟨7, "Everything", ∅⟩

/-- A condition of smart link 6 whose target field exists on no document,
so evaluating it raises a query error. -/
def badCond : SmartLinkCondition :=
  ⟨11, 6, "customer_id", Operator.eq, "missing_field", true, false, true⟩

/-- A smart link (pk 6) whose resolution always fails. -/
def badLink : SmartLink := ⟨6, "Broken", ∅⟩

/-- The sample store holding the three documents and three smart links. -/
def exDb : Db :=
  ⟨[exDoc1, exDoc2, exDoc3], [1, 2], [exLink, exLinkNoConditions, badLink],
   [exCond, badCond]⟩

/-- A store holding no rows at all. -/
def emptyDb : Db := ⟨[], [], [], []⟩

/-- C2: if resolving the smart link for the source document raises any
query/evaluation error, `get_document_queryset` returns the empty
document set (the exception is caught, never propagated, and no partial
result is returned), whatever the store, ACL state and acting user. -/
theorem resolution_error_yields_empty_queryset
    (db : Db) (acl : ACL) (user : User) (sl : SmartLink) (document : Doc) (e : String)
    (hfail : SmartLink.get_linked_document_for db sl document = Except.error e) :
    (ResolvedSmartLinkView.get_document_queryset db acl user sl document).1 = [] := by
  unfold ResolvedSmartLinkView.get_document_queryset
  rw [hfail]
  cases h : check_access acl user Permission.smart_link_edit sl.pk <;> rfl

/-- Witness for C2: smart link 6's condition fails on the sample store,
and the view's queryset is empty. -/
theorem resolution_error_yields_empty_queryset_witness :
    SmartLink.get_linked_document_for exDb badLink exDoc1
      = Except.error "Cannot resolve keyword: missing_field"
    ∧ (ResolvedSmartLinkView.get_document_queryset exDb aclNone exUser badLink exDoc1).1
      = [] :=
  ⟨by rfl,
   resolution_error_yields_empty_queryset exDb aclNone exUser badLink exDoc1
     "Cannot resolve keyword: missing_field" (by rfl)⟩

/-- C1: when resolution fails, the visible output of
`get_document_queryset` (queryset and user-facing messages) depends only
on whether the acting principal holds the edit permission on the smart
link: two principals with the same edit-permission bit see identical
output; a principal without it sees the empty result with no message,
and a principal with it sees the query error message. -/
theorem error_visibility_depends_only_on_edit_permission
    (db : Db) (acl : ACL) (u1 u2 : User) (sl : SmartLink) (document : Doc) (e : String)
    (hfail : SmartLink.get_linked_document_for db sl document = Except.error e)
    (hsame : acl u1.pk Permission.smart_link_edit sl.pk
           = acl u2.pk Permission.smart_link_edit sl.pk) :
    ResolvedSmartLinkView.get_document_queryset db acl u1 sl document
      = ResolvedSmartLinkView.get_document_queryset db acl u2 sl document
    ∧ (acl u1.pk Permission.smart_link_edit sl.pk = false →
        ResolvedSmartLinkView.get_document_queryset db acl u1 sl document = ([], []))
    ∧ (acl u1.pk Permission.smart_link_edit sl.pk = true →
        ResolvedSmartLinkView.get_document_queryset db acl u1 sl document
          = ([], ["Smart link query error: " ++ e])) := by
  unfold ResolvedSmartLinkView.get_document_queryset check_access
  rw [hfail, ← hsame]
  cases hb : acl u1.pk Permission.smart_link_edit sl.pk <;> simp [hb]

/-- Witness for C1: on the failing smart link 6, two distinct principals,
neither holding the edit permission, both receive the empty result with
no message; a principal holding it receives the error message. -/
theorem error_visibility_depends_only_on_edit_permission_witness :
    ResolvedSmartLinkView.get_document_queryset exDb aclNone exUser badLink exDoc1
      = ResolvedSmartLinkView.get_document_queryset exDb aclNone exUser2 badLink exDoc1
    ∧ ResolvedSmartLinkView.get_document_queryset exDb aclNone exUser badLink exDoc1
      = ([], [])
    ∧ ResolvedSmartLinkView.get_document_queryset exDb aclAll exUser badLink exDoc1
      = ([], ["Smart link query error: "
          ++ "Cannot resolve keyword: missing_field"]) :=
  ⟨(error_visibility_depends_only_on_edit_permission exDb aclNone exUser exUser2
      badLink exDoc1 "Cannot resolve keyword: missing_field" (by rfl) (by rfl)).1,
   (error_visibility_depends_only_on_edit_permission exDb aclNone exUser exUser2
      badLink exDoc1 "Cannot resolve keyword: missing_field" (by rfl) (by rfl)).2.1
     (by rfl),
   (error_visibility_depends_only_on_edit_permission exDb aclAll exUser exUser
      badLink exDoc1 "Cannot resolve keyword: missing_field" (by rfl) (by rfl)).2.2
     (by rfl)⟩

/-- C10: the left and right document-type lists of the assignment view
are computed without consulting the ACL store or the acting user: any
two principals, under any two ACL states, are shown identical lists. -/
theorem assignment_lists_ignore_acl
    (db : Db) (acl1 acl2 : ACL) (u1 u2 : User) (sl : SmartLink) :
    SetupSmartLinkDocumentTypesView.left_list db acl1 u1 sl
      = SetupSmartLinkDocumentTypesView.left_list db acl2 u2 sl
    ∧ SetupSmartLinkDocumentTypesView.right_list db acl1 u1 sl
      = SetupSmartLinkDocumentTypesView.right_list db acl2 u2 sl :=
  ⟨rfl, rfl⟩

/-- C6: assigning a document type twice yields the same right (assigned)
list as assigning it once, and removing an absent document type leaves
the right list unchanged. -/
theorem document_type_add_remove_idempotent
    (db : Db) (acl : ACL) (user : User) (sl : SmartLink) (item : Nat) :
    SetupSmartLinkDocumentTypesView.right_list db acl user
        { sl with document_types := (SetupSmartLinkDocumentTypesView.add
            (SetupSmartLinkDocumentTypesView.add sl.document_types item) item) }
      = SetupSmartLinkDocumentTypesView.right_list db acl user
          { sl with document_types :=
              SetupSmartLinkDocumentTypesView.add sl.document_types item }
    ∧ (item ∉ sl.document_types →
        SetupSmartLinkDocumentTypesView.right_list db acl user
            { sl with document_types :=
                SetupSmartLinkDocumentTypesView.remove sl.document_types item }
          = SetupSmartLinkDocumentTypesView.right_list db acl user sl) := by
  constructor
  · simp [SetupSmartLinkDocumentTypesView.right_list,
      SetupSmartLinkDocumentTypesView.add, Finset.insert_idem]
  · intro hmem
    simp [SetupSmartLinkDocumentTypesView.right_list,
      SetupSmartLinkDocumentTypesView.remove, Finset.erase_eq_self.mpr hmem]

/-- Witness for C6: document type 3 on the "Related Invoices" link, whose
assigned set is empty. -/
theorem document_type_add_remove_idempotent_witness :
    SetupSmartLinkDocumentTypesView.right_list exDb aclAll exUser
        { exLink with document_types := (SetupSmartLinkDocumentTypesView.add
            (SetupSmartLinkDocumentTypesView.add exLink.document_types 3) 3) }
      = SetupSmartLinkDocumentTypesView.right_list exDb aclAll exUser
          { exLink with document_types :=
              SetupSmartLinkDocumentTypesView.add exLink.document_types 3 }
    ∧ SetupSmartLinkDocumentTypesView.right_list exDb aclAll exUser
          { exLink with document_types :=
              SetupSmartLinkDocumentTypesView.remove exLink.document_types 3 }
        = SetupSmartLinkDocumentTypesView.right_list exDb aclAll exUser exLink :=
  ⟨(document_type_add_remove_idempotent exDb aclAll exUser exLink 3).1,
   (document_type_add_remove_idempotent exDb aclAll exUser exLink 3).2 (by decide)⟩

/-- C4: once the document and the smart link are found, a principal
failing either the document-view check on the document or the
smart-link-view check on the smart link has the whole request fail with
`PermissionDenied`: no document queryset is computed. -/
theorem resolved_view_denies_before_resolution
    (db : Db) (acl : ACL) (user : User) (document_id smart_link_id : Nat)
    (document : Doc) (smart_link : SmartLink)
    (hdoc : findDocument db document_id = some document)
    (hsl : findSmartLink db smart_link_id = some smart_link)
    (hdenied : acl user.pk Permission.document_view document.pk = false
             ∨ acl user.pk Permission.smart_link_view smart_link.pk = false) :
    ResolvedSmartLinkView.run db acl user document_id smart_link_id
      = Except.error ViewError.permissionDenied := by
  unfold ResolvedSmartLinkView.run ResolvedSmartLinkView.dispatch check_access
  rw [hdoc, hsl]
  rcases hdenied with h | h
  · simp [h]
  · cases hb : acl user.pk Permission.document_view document.pk <;> simp [hb, h]

/-- Witness for C4: under the empty ACL store, resolving smart link 5 for
document 1 is denied. -/
theorem resolved_view_denies_before_resolution_witness :
    findDocument exDb 1 = some exDoc1
    ∧ findSmartLink exDb 5 = some exLink
    ∧ (aclNone exUser.pk Permission.document_view exDoc1.pk = false
       ∨ aclNone exUser.pk Permission.smart_link_view exLink.pk = false)
    ∧ ResolvedSmartLinkView.run exDb aclNone exUser 1 5
      = Except.error ViewError.permissionDenied :=
  ⟨by rfl, by rfl, Or.inl (by rfl),
   resolved_view_denies_before_resolution exDb aclNone exUser 1 5 exDoc1 exLink
     (by rfl) (by rfl) (Or.inl (by rfl))⟩

/-- C5: the condition create, edit and delete views check the
smart-link-edit permission against the owning smart link — a denied
check on the owning link short-circuits the operation with
`PermissionDenied` before any mutation, and the outcome of each view
depends on the ACL store only through its value at the owning smart
link (in particular never through the condition object itself). -/
theorem condition_views_check_owning_smart_link
    (db : Db) (acl acl2 : ACL) (user : User) (slid cid : Nat)
    (sl : SmartLink) (cond : SmartLinkCondition) (payload : SmartLinkCondition)
    (hsl : findSmartLink db slid = some sl)
    (hcond : findCondition db cid = some cond) :
    (acl user.pk Permission.smart_link_edit sl.pk = false →
      SmartLinkConditionCreateView.run db acl user slid payload
        = Except.error ViewError.permissionDenied)
    ∧ (acl user.pk Permission.smart_link_edit cond.smart_link_pk = false →
      SmartLinkConditionEditView.run db acl user cid payload
        = Except.error ViewError.permissionDenied)
    ∧ (acl user.pk Permission.smart_link_edit cond.smart_link_pk = false →
      SmartLinkConditionDeleteView.run db acl user cid
        = Except.error ViewError.permissionDenied)
    ∧ (acl user.pk Permission.smart_link_edit sl.pk
         = acl2 user.pk Permission.smart_link_edit sl.pk →
      SmartLinkConditionCreateView.run db acl user slid payload
        = SmartLinkConditionCreateView.run db acl2 user slid payload)
    ∧ (acl user.pk Permission.smart_link_edit cond.smart_link_pk
         = acl2 user.pk Permission.smart_link_edit cond.smart_link_pk →
      SmartLinkConditionEditView.run db acl user cid payload
        = SmartLinkConditionEditView.run db acl2 user cid payload)
    ∧ (acl user.pk Permission.smart_link_edit cond.smart_link_pk
         = acl2 user.pk Permission.smart_link_edit cond.smart_link_pk →
      SmartLinkConditionDeleteView.run db acl user cid
        = SmartLinkConditionDeleteView.run db acl2 user cid) := by
  unfold SmartLinkConditionCreateView.run SmartLinkConditionEditView.run
    SmartLinkConditionDeleteView.run check_access
  rw [hsl, hcond]
  refine ⟨fun h => by simp [h], fun h => by simp [h], fun h => by simp [h],
    fun h => by simp [h], fun h => by simp [h], fun h => by simp [h]⟩

/-- Witness for C5: condition 10 is owned by smart link 5; under the
empty ACL store all three operations are denied. -/
theorem condition_views_check_owning_smart_link_witness :
    SmartLinkConditionCreateView.run exDb aclNone exUser 5 badCond
      = Except.error ViewError.permissionDenied
    ∧ SmartLinkConditionEditView.run exDb aclNone exUser 10 badCond
      = Except.error ViewError.permissionDenied
    ∧ SmartLinkConditionDeleteView.run exDb aclNone exUser 10
      = Except.error ViewError.permissionDenied :=
  ⟨(condition_views_check_owning_smart_link exDb aclNone aclNone exUser 5 10
      exLink exCond badCond (by rfl) (by rfl)).1 (by rfl),
   (condition_views_check_owning_smart_link exDb aclNone aclNone exUser 5 10
      exLink exCond badCond (by rfl) (by rfl)).2.1 (by rfl),
   (condition_views_check_owning_smart_link exDb aclNone aclNone exUser 5 10
      exLink exCond badCond (by rfl) (by rfl)).2.2.1 (by rfl)⟩

/-- C7: whenever the assigned document types all exist in the store (the
foreign-key invariant), the left (available) and right (assigned) lists
partition the document types: a type is in the left list exactly when it
exists and is not assigned, it is in the right list exactly when it is
assigned, the two lists are disjoint, and together they cover every
document type. -/
theorem left_right_lists_partition
    (db : Db) (acl : ACL) (user : User) (sl : SmartLink)
    (hsub : sl.document_types ⊆ db.document_types.toFinset) :
    (∀ t, t ∈ SetupSmartLinkDocumentTypesView.left_list db acl user sl
        ↔ (t ∈ db.document_types.toFinset ∧ t ∉ sl.document_types))
    ∧ (∀ t, t ∈ SetupSmartLinkDocumentTypesView.right_list db acl user sl
        ↔ t ∈ sl.document_types)
    ∧ Disjoint (SetupSmartLinkDocumentTypesView.left_list db acl user sl)
        (SetupSmartLinkDocumentTypesView.right_list db acl user sl)
    ∧ SetupSmartLinkDocumentTypesView.left_list db acl user sl
        ∪ SetupSmartLinkDocumentTypesView.right_list db acl user sl
      = db.document_types.toFinset := by
  refine ⟨fun t => ?_, fun t => Iff.rfl, ?_, ?_⟩
  · simp [SetupSmartLinkDocumentTypesView.left_list]
  · rw [Finset.disjoint_left]
    intro a ha hb
    simp [SetupSmartLinkDocumentTypesView.left_list,
      SetupSmartLinkDocumentTypesView.right_list] at ha hb
    exact ha.2 hb
  · ext a
    simp only [SetupSmartLinkDocumentTypesView.left_list,
      SetupSmartLinkDocumentTypesView.right_list, Finset.mem_union, Finset.mem_filter]
    constructor
    · rintro (⟨h, _⟩ | h)
      · exact h
      · exact hsub h
    · intro h
      by_cases hm : a ∈ sl.document_types
      · exact Or.inr hm
      · exact Or.inl ⟨h, hm⟩

/-- Witness for C7: the "Everything" smart link has no assigned types,
so its left list is all document types and its right list is empty. -/
theorem left_right_lists_partition_witness :
    Disjoint
        (SetupSmartLinkDocumentTypesView.left_list exDb aclAll exUser
          exLinkNoConditions)
        (SetupSmartLinkDocumentTypesView.right_list exDb aclAll exUser
          exLinkNoConditions)
    ∧ SetupSmartLinkDocumentTypesView.left_list exDb aclAll exUser
          exLinkNoConditions
        ∪ SetupSmartLinkDocumentTypesView.right_list exDb aclAll exUser
          exLinkNoConditions
      = exDb.document_types.toFinset :=
  ⟨(left_right_lists_partition exDb aclAll exUser exLinkNoConditions
      (by decide)).2.2.1,
   (left_right_lists_partition exDb aclAll exUser exLinkNoConditions
      (by decide)).2.2.2⟩

/-- An effectful filter whose predicate always succeeds with `true`
keeps the whole list. -/
theorem filterE_ok_true (p : Doc → Except String Bool)
    (hp : ∀ d, p d = Except.ok true) :
    ∀ l : List Doc, filterE p l = Except.ok l := by
  intro l
  induction l with
  | nil => rfl
  | cons d ds ih => simp [filterE, hp d, ih]

/-- C8: a smart link owning no conditions resolves, for any source
document, to the full document set, raising no error and reporting no
message through the view. -/
theorem empty_conditions_resolution_returns_all
    (db : Db) (acl : ACL) (user : User) (sl : SmartLink) (document : Doc)
    (hconds : SmartLink.get_conditions db sl = []) :
    SmartLink.get_linked_document_for db sl document = Except.ok db.documents
    ∧ ResolvedSmartLinkView.get_document_queryset db acl user sl document
      = (db.documents, []) := by
  have hres : SmartLink.get_linked_document_for db sl document
      = Except.ok db.documents := by
    unfold SmartLink.get_linked_document_for
    rw [hconds]
    exact filterE_ok_true _ (fun d => rfl) db.documents
  refine ⟨hres, ?_⟩
  unfold ResolvedSmartLinkView.get_document_queryset
  rw [hres]

/-- Witness for C8: smart link 7 owns no conditions and resolves to all
three documents of the sample store. -/
theorem empty_conditions_resolution_returns_all_witness :
    SmartLink.get_conditions exDb exLinkNoConditions = []
    ∧ (SmartLink.get_linked_document_for exDb exLinkNoConditions exDoc1
        = Except.ok exDb.documents
      ∧ ResolvedSmartLinkView.get_document_queryset exDb aclNone exUser
          exLinkNoConditions exDoc1
        = (exDb.documents, [])) :=
  ⟨by rfl,
   empty_conditions_resolution_returns_all exDb aclNone exUser exLinkNoConditions
     exDoc1 (by rfl)⟩

/-- C9: an operation addressed at a missing primary key fails with the
standard not-found failure, whatever the ACL store — so before any
permission check and before any mutation: the resolved view for a
missing document or smart link, the document-type assignment view's
object lookup, the condition list view's smart-link lookup, condition
creation under a missing smart link, and condition edit/delete for a
missing condition. -/
theorem missing_pk_yields_not_found
    (db : Db) (acl : ACL) (user : User)
    (document_id smart_link_id condition_id : Nat) (payload : SmartLinkCondition) :
    (findDocument db document_id = none →
      ResolvedSmartLinkView.run db acl user document_id smart_link_id
        = Except.error ViewError.notFound)
    ∧ (findSmartLink db smart_link_id = none →
      ResolvedSmartLinkView.run db acl user document_id smart_link_id
        = Except.error ViewError.notFound)
    ∧ (findSmartLink db smart_link_id = none →
      SetupSmartLinkDocumentTypesView.get_object db smart_link_id
        = Except.error ViewError.notFound)
    ∧ (findSmartLink db smart_link_id = none →
      SmartLinkConditionListView.get_smart_link db smart_link_id
        = Except.error ViewError.notFound)
    ∧ (findSmartLink db smart_link_id = none →
      SmartLinkConditionCreateView.run db acl user smart_link_id payload
        = Except.error ViewError.notFound)
    ∧ (findCondition db condition_id = none →
      SmartLinkConditionEditView.run db acl user condition_id payload
        = Except.error ViewError.notFound)
    ∧ (findCondition db condition_id = none →
      SmartLinkConditionDeleteView.run db acl user condition_id
        = Except.error ViewError.notFound) := by
  refine ⟨fun h => ?_, fun h => ?_, fun h => ?_, fun h => ?_, fun h => ?_,
    fun h => ?_, fun h => ?_⟩
  · unfold ResolvedSmartLinkView.run ResolvedSmartLinkView.dispatch
    rw [h]
  · unfold ResolvedSmartLinkView.run ResolvedSmartLinkView.dispatch
    cases hd : findDocument db document_id
    · rfl
    · rw [h]
  · unfold SetupSmartLinkDocumentTypesView.get_object
    rw [h]
  · unfold SmartLinkConditionListView.get_smart_link
    rw [h]
  · unfold SmartLinkConditionCreateView.run
    rw [h]
  · unfold SmartLinkConditionEditView.run
    rw [h]
  · unfold SmartLinkConditionDeleteView.run
    rw [h]

/-- Witness for C9: every lookup misses on the empty store, and every
operation answers not-found even under the all-granting ACL store. -/
theorem missing_pk_yields_not_found_witness :
    ResolvedSmartLinkView.run emptyDb aclAll exUser 1 5
      = Except.error ViewError.notFound
    ∧ SetupSmartLinkDocumentTypesView.get_object emptyDb 5
      = Except.error ViewError.notFound
    ∧ SmartLinkConditionListView.get_smart_link emptyDb 5
      = Except.error ViewError.notFound
    ∧ SmartLinkConditionCreateView.run emptyDb aclAll exUser 5 exCond
      = Except.error ViewError.notFound
    ∧ SmartLinkConditionEditView.run emptyDb aclAll exUser 10 exCond
      = Except.error ViewError.notFound
    ∧ SmartLinkConditionDeleteView.run emptyDb aclAll exUser 10
      = Except.error ViewError.notFound :=
  ⟨(missing_pk_yields_not_found emptyDb aclAll exUser 1 5 10 exCond).1 (by rfl),
   (missing_pk_yields_not_found emptyDb aclAll exUser 1 5 10 exCond).2.2.1 (by rfl),
   (missing_pk_yields_not_found emptyDb aclAll exUser 1 5 10 exCond).2.2.2.1 (by rfl),
   (missing_pk_yields_not_found emptyDb aclAll exUser 1 5 10 exCond).2.2.2.2.1 (by rfl),
   (missing_pk_yields_not_found emptyDb aclAll exUser 1 5 10 exCond).2.2.2.2.2.1 (by rfl),
   (missing_pk_yields_not_found emptyDb aclAll exUser 1 5 10 exCond).2.2.2.2.2.2 (by rfl)⟩

/-- C3 counterexample: resolving the "Related Invoices" smart link (one
condition, `source.customer_id == target.customer_id`) for source
document 1 (customer_id 42) yields documents 1 and 2 — the source
document itself is among the results, refuting the claimed
self-exclusion. -/
theorem resolution_includes_source_counterexample :
    SmartLink.get_linked_document_for exDb exLink exDoc1
      = Except.ok [exDoc1, exDoc2]
    ∧ exDoc1 ∈ [exDoc1, exDoc2] :=
  ⟨by rfl, List.Mem.head _⟩

/-- Over candidate documents that all carry the `customer_id` field, the
effectful filter for the single condition
`source.customer_id == target.customer_id` succeeds and keeps exactly
the documents whose `customer_id` equals the source's value. -/
theorem filterE_customer_id_condition (source : Doc) (v : Int) (cpk slpk : Nat)
    (hsource : source.getField "customer_id" = some v) :
    ∀ l : List Doc, (∀ d ∈ l, (Doc.getField d "customer_id").isSome) →
      filterE (conditionsMatch source
          [⟨cpk, slpk, "customer_id", Operator.eq, "customer_id", true, false, true⟩]) l
        = Except.ok (l.filter (fun d => Doc.getField d "customer_id" == some v)) := by
  intro l
  induction l with
  | nil => intro _; rfl
  | cons d ds ih =>
    intro hall
    obtain ⟨tv, htv⟩ := Option.isSome_iff_exists.mp (hall d (List.mem_cons_self d ds))
    have hds := ih (fun x hx => hall x (List.mem_cons_of_mem d hx))
    have hpd : conditionsMatch source
        [⟨cpk, slpk, "customer_id", Operator.eq, "customer_id", true, false, true⟩] d
        = Except.ok (tv == v) := by
      simp [conditionsMatch, evalCondition, applyOperator, htv, hsource]
    simp only [filterE, hpd, hds, List.filter_cons]
    cases hb : (tv == v)
    · have hne : tv ≠ v := beq_eq_false_iff_ne.mp hb
      simp [htv, hne]
    · have heq : tv = v := eq_of_beq hb
      simp [htv, heq]

/-- C3 amended: resolving a smart link whose single condition is
`source.customer_id == target.customer_id`, for a source document whose
`customer_id` is v and candidates all carrying a `customer_id`, returns
exactly the documents whose `customer_id` equals v — including the
source document itself when it matches (self-reference is not
excluded). -/
theorem one_condition_resolution_filters_by_customer_id
    (db : Db) (sl : SmartLink) (source : Doc) (v : Int) (cpk slpk : Nat)
    (hconds : SmartLink.get_conditions db sl
      = [⟨cpk, slpk, "customer_id", Operator.eq, "customer_id", true, false, true⟩])
    (hsource : source.getField "customer_id" = some v)
    (hall : ∀ d ∈ db.documents, (Doc.getField d "customer_id").isSome) :
    SmartLink.get_linked_document_for db sl source
      = Except.ok (db.documents.filter
          (fun d => Doc.getField d "customer_id" == some v)) := by
  unfold SmartLink.get_linked_document_for
  rw [hconds]
  exact filterE_customer_id_condition source v cpk slpk hsource db.documents hall

/-- Witness for the amended C3: on the sample store, resolution for
source document 1 (customer_id 42) returns exactly the documents whose
customer_id is 42 — documents 1 and 2, the source included. -/
theorem one_condition_resolution_filters_by_customer_id_witness :
    SmartLink.get_linked_document_for exDb exLink exDoc1
      = Except.ok (exDb.documents.filter
          (fun d => Doc.getField d "customer_id" == some 42)) :=
  one_condition_resolution_filters_by_customer_id exDb exLink exDoc1 42 10 5
    (by rfl) (by rfl) (by decide)

end Linking
